import Mathlib

/-!
Shallow embedding of the registration tool in skill/scripts/register.py.

Paths are lists of path segments. The filesystem is modelled as a pair of
total maps: regular-file contents per path and a directory-existence flag
per path. Standard output is not modelled. Reading the content of a path
that exists only as a directory is modelled as the empty string; no claim
depends on that corner, where the source interpreter would raise instead.
-/

abbrev FsPath := List String

/-- Bool test: the first path is a prefix (ancestor or equal) of the second. -/
def isPre : FsPath -> FsPath -> Bool
  | [], _ => true
  | _ :: _, [] => false
  | a :: as, b :: bs => if a = b then isPre as bs else false

/-- Remainder of the second path after removing the first as a prefix. -/
def subPath : FsPath -> FsPath -> Option FsPath
  | [], q => some q
  | _ :: _, [] => none
  | a :: as, b :: bs => if a = b then subPath as bs else none

/-- Filesystem state: file contents and directory flags, both per path. -/
structure FS where
  file : FsPath -> Option String
  dir : FsPath -> Bool

/-- FsPath.exists in the source: true when a file or a directory is present. -/
def FS.existsPath (fs : FS) (p : FsPath) : Bool :=
  fs.dir p || (fs.file p).isSome

/-- FsPath.read_text in the source, totalised: empty string when no file. -/
def FS.readFile (fs : FS) (p : FsPath) : String :=
  (fs.file p).getD ""

/-- FsPath.write_text in the source: create or overwrite the file at p. -/
def FS.writeText (fs : FS) (p : FsPath) (s : String) : FS :=
  { fs with file := fun q => if q = p then some s else fs.file q }

/-- FsPath.mkdir with parents=True, exist_ok=True: p and all ancestors become dirs. -/
def FS.mkdirParents (fs : FS) (p : FsPath) : FS :=
  { fs with dir := fun q => if isPre q p then true else fs.dir q }

/-- shutil.rmtree: remove everything at or below p. -/
def FS.rmtree (fs : FS) (p : FsPath) : FS :=
  { file := fun q => if isPre p q then none else fs.file q,
    dir := fun q => if isPre p q then false else fs.dir q }

/-- shutil.copytree src dst: the subtree below dst becomes a mirror of the
subtree below src (read from the pre-state), dst itself becomes a directory;
everything outside dst is unchanged. -/
def FS.copytree (fs : FS) (src dst : FsPath) : FS :=
  { file := fun q =>
      match subPath dst q with
      | some [] => none
      | some rest => fs.file (src ++ rest)
      | none => fs.file q,
    dir := fun q =>
      match subPath dst q with
      | some [] => true
      | some rest => fs.dir (src ++ rest)
      | none => fs.dir q }

/- get_skill_dir returns the directory holding SKILL.md; it is a parameter
(toolSkillDir) of the functions below, resolved from __file__ in the source. -/

/-- get_skill_content: read SKILL.md next to the tool, empty if absent. -/
def get_skill_content (fs : FS) (toolSkillDir : FsPath) : String :=
  if fs.existsPath (toolSkillDir ++ ["SKILL.md"]) then
    fs.readFile (toolSkillDir ++ ["SKILL.md"])
  else ""

/-- get_claude_content: probe skill dir CLAUDE.md then its parent, first
existing path wins, empty when neither exists. -/
def get_claude_content (fs : FS) (toolSkillDir : FsPath) : String :=
  if fs.existsPath (toolSkillDir ++ ["CLAUDE.md"]) then
    fs.readFile (toolSkillDir ++ ["CLAUDE.md"])
  else if fs.existsPath (toolSkillDir.dropLast ++ ["CLAUDE.md"]) then
    fs.readFile (toolSkillDir.dropLast ++ ["CLAUDE.md"])
  else ""

/-- generate_antigravity_workflow: the static workflow template. -/
def generate_antigravity_workflow : String :=
  "---\ndescription: Build, test, and automate iOS apps with semantic navigation. Use when asked about iOS simulators, Xcode builds, accessibility testing, or app automation.\n---\n\n# iOS Simulator Skill\n\nProduction-ready automation for iOS app testing and building. 21 scripts optimized for AI agents.\n\n---\n\n## ⚡ Quick Start\n\n```bash\n# 1. Check environment\nbash scripts/sim_health_check.sh\n\n# 2. Launch app\npython scripts/app_launcher.py --launch com.example.app\n\n# 3. Map screen to see elements\npython scripts/screen_mapper.py\n\n# 4. Tap button by text\npython scripts/navigator.py --find-text \"Login\" --tap\n\n# 5. Enter text\npython scripts/navigator.py --find-type TextField --enter-text \"user@example.com\"\n```\n\n---\n\n## Script Categories\n\n### Build & Development\n| Script | Description |\n|--------|-------------|\n| `build_and_test.py` | Build Xcode projects, run tests, parse results |\n| `log_monitor.py` | Real-time log monitoring with filtering |\n\n### Navigation & Interaction\n| Script | Description |\n|--------|-------------|\n| `screen_mapper.py` | Analyze current screen elements |\n| `navigator.py` | Find and interact with elements semantically |\n| `gesture.py` | Swipes, scrolls, pinches, long press |\n| `keyboard.py` | Text input and hardware buttons |\n| `app_launcher.py` | App lifecycle (launch, terminate, install) |\n\n### Testing & Analysis\n| Script | Description |\n|--------|-------------|\n| `accessibility_audit.py` | WCAG compliance checking |\n| `visual_diff.py` | Screenshot comparison |\n| `test_recorder.py` | Automated test documentation |\n| `app_state_capture.py` | Debugging snapshots |\n| `sim_health_check.sh` | Environment verification |\n\n### Advanced Testing & Permissions\n| Script | Description |\n|--------|-------------|\n| `clipboard.py` | Clipboard management |\n| `status_bar.py` | Override status bar appearance |\n| `push_notification.py` | Send test push notifications |\n| `privacy_manager.py` | Grant/revoke app permissions |\n\n### Device Lifecycle\n| Script | Description |\n|--------|-------------|\n| `simctl_boot.py` | Boot simulators |\n| `simctl_shutdown.py` | Shutdown simulators |\n| `simctl_create.py` | Create new simulators |\n| `simctl_delete.py` | Delete simulators |\n| `simctl_erase.py` | Factory reset simulators |\n\n---\n\n## Common Patterns\n\n**Auto-UDID Detection**: Scripts auto-detect the booted simulator if `--udid` not provided.\n\n**Device Name Resolution**: Use names like \"iPhone 16 Pro\" instead of UDIDs.\n\n**Batch Operations**: Many scripts support `--all` or `--type iPhone` for bulk operations.\n\n**Output Formats**:\n- Default: Concise human-readable (3-5 lines)\n- `--verbose`: Detailed output\n- `--json`: Machine-readable for CI/CD\n\n---\n\n## Examples for AI Agents\n\n### Login Flow Test\n\n```bash\n# Launch app\npython scripts/app_launcher.py --launch com.example.app\n\n# Map screen to find fields\npython scripts/screen_mapper.py\n\n# Enter email\npython scripts/navigator.py --find-type TextField --index 0 --enter-text \"user@test.com\"\n\n# Enter password\npython scripts/navigator.py --find-type SecureTextField --enter-text \"password123\"\n\n# Tap login button\npython scripts/navigator.py --find-text \"Login\" --tap\n\n# Verify accessibility compliance\npython scripts/accessibility_audit.py\n```\n\n### Permission Testing\n\n```bash\n# Grant camera and location permissions\npython scripts/privacy_manager.py --bundle-id com.example.app --grant camera,location\n\n# Test app behavior...\n\n# Revoke permissions\npython scripts/privacy_manager.py --bundle-id com.example.app --revoke camera,location\n```\n\n### CI/CD Device Lifecycle\n\n```bash\n# Create test device\nDEVICE_ID=$(python scripts/simctl_create.py --device \"iPhone 16 Pro\" --json | jq -r \x27.new_udid\x27)\n\n# Run tests\npython scripts/build_and_test.py --project MyApp.xcodeproj --test\n\n# Clean up\npython scripts/simctl_delete.py --udid $DEVICE_ID --yes\n```\n\n---\n\n## Safe Commands (Read-Only)\n\n// turbo\nThe following commands are safe to auto-execute:\n\n```bash\n# List simulators\npython scripts/simctl_boot.py --list\n\n# Health check\nbash scripts/sim_health_check.sh\n\n# Screen analysis (no interaction)\npython scripts/screen_mapper.py\n\n# Accessibility audit\npython scripts/accessibility_audit.py\n\n# App state capture\npython scripts/app_state_capture.py --app-bundle-id com.example.app\n```\n\n---\n\n## Requirements\n\n- macOS 12+\n- Xcode Command Line Tools\n- Python 3\n- IDB (optional, for interactive features)\n\n---\n\n## Registration\n\n```bash\nios-sim --register agent   # Antigravity/Gemini\nios-sim --register code    # Claude Code\nios-sim --register help    # Show documentation\nios-sim --register         # Manual copy-paste\n```\n"

/-- generate_help_text: the static help document. -/
def generate_help_text : String :=
  "ios-simulator-skill - Self-Registration Guide\n\nRegister this skill with AI development platforms:\n\n1. **Claude Code**: Run `ios-sim --register code`\n   - Creates `.claude/skills/ios-sim/` with SKILL.md and CLAUDE.md\n   - Skill loads automatically after restart\n\n2. **Antigravity/Gemini**: Run `ios-sim --register agent`\n   - Creates `.agent/workflows/ios-simulator-skill.md`\n   - Workflow becomes available immediately\n\n3. **Manual/Chat**: Run `ios-sim --register`\n   - Outputs markdown to copy-paste into chat interfaces\n\nAfter registration, the skill is available for iOS automation tasks.\n\nRequirements:\n- macOS 12+\n- Xcode Command Line Tools\n- Python 3\n- IDB (optional, for interactive features)\n"

/-- Target-side skill directory: target/.claude/skills/ios-sim. -/
def skillDir (target : FsPath) : FsPath := target ++ [".claude", "skills", "ios-sim"]

/-- register_claude_code: mkdir the skill dir, conditionally write SKILL.md
and CLAUDE.md, then replace the scripts subtree wholesale when the source
scripts directory exists. Returns the new state and the reported success. -/
def register_claude_code (fs : FS) (toolSkillDir target : FsPath) : FS × Bool :=
  let sd := skillDir target
  let fs1 := fs.mkdirParents sd
  let skillContent := get_skill_content fs1 toolSkillDir
  let fs2 := if skillContent ≠ "" then fs1.writeText (sd ++ ["SKILL.md"]) skillContent else fs1
  let claudeContent := get_claude_content fs2 toolSkillDir
  let fs3 := if claudeContent ≠ "" then fs2.writeText (sd ++ ["CLAUDE.md"]) claudeContent else fs2
  let scriptsSrc := toolSkillDir ++ ["scripts"]
  let scriptsDst := sd ++ ["scripts"]
  let fs4 :=
    if fs3.existsPath scriptsSrc then
      (if fs3.existsPath scriptsDst then fs3.rmtree scriptsDst else fs3).copytree
        scriptsSrc scriptsDst
    else fs3
  (fs4, true)

/-- First half of register_claude_code (mkdir and the two conditional
document writes), used to state intermediate facts; register_claude_code
is definitionally the second half composed onto this one. -/
def rccDocs (fs : FS) (toolSkillDir target : FsPath) : FS :=
  let sd := skillDir target
  let fs1 := fs.mkdirParents sd
  let skillContent := get_skill_content fs1 toolSkillDir
  let fs2 := if skillContent ≠ "" then fs1.writeText (sd ++ ["SKILL.md"]) skillContent else fs1
  let claudeContent := get_claude_content fs2 toolSkillDir
  if claudeContent ≠ "" then fs2.writeText (sd ++ ["CLAUDE.md"]) claudeContent else fs2

/-- Second half of register_claude_code: the scripts remove-then-copy step. -/
def rccScripts (fs : FS) (toolSkillDir target : FsPath) : FS :=
  let scriptsSrc := toolSkillDir ++ ["scripts"]
  let scriptsDst := skillDir target ++ ["scripts"]
  if fs.existsPath scriptsSrc then
    (if fs.existsPath scriptsDst then fs.rmtree scriptsDst else fs).copytree scriptsSrc scriptsDst
  else fs

/-- register_antigravity: mkdir target/.agent/workflows and write the
workflow file with the static template, overwriting unconditionally. -/
def register_antigravity (fs : FS) (target : FsPath) : FS × Bool :=
  let workflowDir := target ++ [".agent", "workflows"]
  let fs1 := fs.mkdirParents workflowDir
  let fs2 := fs1.writeText (workflowDir ++ ["ios-simulator-skill.md"]) generate_antigravity_workflow
  (fs2, true)

/-- The choices list of the argparse --register option. -/
def registerChoices : List String := ["none", "code", "agent", "help", "mcp"]

/-- Shape of the --register command-line option as given by the user. -/
inductive RegisterArg where
  | absent
  | flagOnly
  | value (s : String)

/-- argparse handling of --register: nargs with const none-string, fixed
choices; an unrecognized value is a parse error (argparse exits 2). -/
def parseRegister : RegisterArg -> Option (Option String)
  | .absent => some none
  | .flagOnly => some (some "none")
  | .value s => if s ∈ registerChoices then some (some s) else none

/-- Outcome of one process invocation: final filesystem and exit status. -/
structure RunResult where
  fs : FS
  exitCode : Nat

/-- main: argument dispatch. Parse errors exit 2 with no side effect; help,
mcp and manual modes exit 0 with no side effect; code and agent run the
registration and exit 0 on reported success, 1 on reported failure. -/
def mainRun (fs : FS) (toolSkillDir : FsPath) (arg : RegisterArg) (target : FsPath) : RunResult :=
  match parseRegister arg with
  | none => ⟨fs, 2⟩
  | some none => ⟨fs, 0⟩
  | some (some m) =>
    if m = "help" then ⟨fs, 0⟩
    else if m = "code" then
      let r := register_claude_code fs toolSkillDir target
      ⟨r.1, if r.2 then 0 else 1⟩
    else if m = "agent" then
      let r := register_antigravity fs target
      ⟨r.1, if r.2 then 0 else 1⟩
    else if m = "mcp" then ⟨fs, 0⟩
    else ⟨fs, 0⟩

/-- Example source-side filesystem used by concrete witnesses: the tool at
/opt/skill with a skill document, a parent instructions document and one
script file. -/
def fsEx : FS :=
  { file := fun p =>
      if p = ["opt", "skill", "SKILL.md"] then some "skill doc"
      else if p = ["opt", "CLAUDE.md"] then some "claude doc"
      else if p = ["opt", "skill", "scripts", "foo.py"] then some "print(1)"
      else none,
    dir := fun p =>
      if p = ["opt"] then true
      else if p = ["opt", "skill"] then true
      else if p = ["opt", "skill", "scripts"] then true
      else false }

/-- Like fsEx but with no skill document at the tool location. -/
def fsEx2 : FS :=
  { file := fun p =>
      if p = ["opt", "CLAUDE.md"] then some "claude doc"
      else if p = ["opt", "skill", "scripts", "foo.py"] then some "print(1)"
      else none,
    dir := fun p =>
      if p = ["opt"] then true
      else if p = ["opt", "skill"] then true
      else if p = ["opt", "skill", "scripts"] then true
      else false }

/-- Like fsEx but with no source scripts directory and a stale script file
already present on the target side. -/
def fsEx3 : FS :=
  { file := fun p =>
      if p = ["opt", "skill", "SKILL.md"] then some "skill doc"
      else if p = ["home", ".claude", "skills", "ios-sim", "scripts", "old.py"] then some "stale"
      else none,
    dir := fun p =>
      if p = ["opt"] then true
      else if p = ["opt", "skill"] then true
      else if p = ["home", ".claude", "skills", "ios-sim", "scripts"] then true
      else false }

/-- Separation hypothesis between the tool location and the target: the
target .claude area is unrelated (by prefix order) to the tool skill
directory and to its parent. This is the validity condition under which
registration reads and writes cannot interfere. -/
def Separated (toolSkillDir target : FsPath) : Prop :=
  isPre (target ++ [".claude"]) toolSkillDir = false ∧
  isPre toolSkillDir (target ++ [".claude"]) = false ∧
  isPre toolSkillDir.dropLast (target ++ [".claude"]) = false

theorem subPath_iff : ∀ p q r : FsPath, subPath p q = some r ↔ q = p ++ r
  | [], q, r => by simp [subPath]
  | a :: as, [], r => by simp [subPath]
  | a :: as, b :: bs, r => by
    by_cases h : a = b
    · subst h
      simp [subPath, subPath_iff as bs r]
    · simp [subPath, h, Ne.symm h]

theorem isPre_eq_isSome : ∀ p q : FsPath, isPre p q = (subPath p q).isSome
  | [], q => rfl
  | a :: as, [] => rfl
  | a :: as, b :: bs => by
    by_cases h : a = b
    · subst h
      simp [isPre, subPath, isPre_eq_isSome as bs]
    · simp [isPre, subPath, h]

theorem isPre_iff (p q : FsPath) : isPre p q = true ↔ ∃ r, q = p ++ r := by
  rw [isPre_eq_isSome, Option.isSome_iff_exists]
  constructor
  · rintro ⟨r, h⟩
    exact ⟨r, (subPath_iff p q r).1 h⟩
  · rintro ⟨r, h⟩
    exact ⟨r, (subPath_iff p q r).2 h⟩

theorem isPre_self_app (p r : FsPath) : isPre p (p ++ r) = true :=
  (isPre_iff p (p ++ r)).2 ⟨r, rfl⟩

theorem subPath_self_app (p r : FsPath) : subPath p (p ++ r) = some r :=
  (subPath_iff p (p ++ r) r).2 rfl

theorem isPre_refl (p : FsPath) : isPre p p = true := by
  simpa using isPre_self_app p []

theorem isPre_trans {a b c : FsPath} (h1 : isPre a b = true) (h2 : isPre b c = true) :
    isPre a c = true := by
  obtain ⟨r1, rfl⟩ := (isPre_iff a b).1 h1
  obtain ⟨r2, rfl⟩ := (isPre_iff (a ++ r1) c).1 h2
  exact (isPre_iff _ _).2 ⟨r1 ++ r2, by simp⟩

theorem isPre_two {a b c : FsPath} (h1 : isPre a c = true) (h2 : isPre b c = true) :
    isPre a b = true ∨ isPre b a = true := by
  obtain ⟨r1, hr1⟩ := (isPre_iff a c).1 h1
  obtain ⟨r2, hr2⟩ := (isPre_iff b c).1 h2
  rcases List.append_eq_append_iff.1 (hr1.symm.trans hr2) with ⟨u, hu, _⟩ | ⟨u, hu, _⟩
  · exact Or.inl ((isPre_iff a b).2 ⟨u, hu⟩)
  · exact Or.inr ((isPre_iff b a).2 ⟨u, hu⟩)

theorem isPre_length {p q : FsPath} (h : isPre p q = true) : p.length ≤ q.length := by
  obtain ⟨r, rfl⟩ := (isPre_iff p q).1 h
  simp

theorem dropLast_isPre (p : FsPath) : isPre p.dropLast p = true := by
  rcases eq_or_ne p [] with rfl | hp
  · rfl
  · exact (isPre_iff _ _).2 ⟨[p.getLast hp], (List.dropLast_append_getLast hp).symm⟩

theorem subPath_none_of_not_isPre {p q : FsPath} (h : isPre p q = false) :
    subPath p q = none := by
  rcases hsp : subPath p q with _ | r
  · rfl
  · rw [isPre_eq_isSome, hsp] at h
    cases h

theorem isPre_false_of_length {p q : FsPath} (h : q.length < p.length) : isPre p q = false := by
  by_contra hc
  have := isPre_length (by simpa using Bool.of_not_eq_false hc)
  omega

theorem claudeRoot_pre_skillDir (g : FsPath) :
    isPre (g ++ [".claude"]) (skillDir g) = true := by
  have h := isPre_self_app (g ++ [".claude"]) ["skills", "ios-sim"]
  simpa [skillDir, List.append_assoc] using h

theorem sep_core {T g : FsPath} (hsep : Separated T g) : isPre T (skillDir g) = false := by
  by_contra hc
  have hT : isPre T (skillDir g) = true := by
    cases h : isPre T (skillDir g)
    · exact absurd h hc
    · rfl
  rcases isPre_two hT (claudeRoot_pre_skillDir g) with h | h
  · rw [hsep.2.1] at h; cases h
  · rw [hsep.1] at h; cases h

theorem sep_core_par {T g : FsPath} (hsep : Separated T g) :
    isPre T.dropLast (skillDir g) = false := by
  by_contra hc
  have hT : isPre T.dropLast (skillDir g) = true := by
    cases h : isPre T.dropLast (skillDir g)
    · exact absurd h hc
    · rfl
  rcases isPre_two hT (claudeRoot_pre_skillDir g) with h | h
  · rw [hsep.2.2] at h; cases h
  · have : isPre (g ++ [".claude"]) T = true := isPre_trans h (dropLast_isPre T)
    rw [hsep.1] at this; cases this

theorem sep_not_over {T g : FsPath} (hsep : Separated T g) (r : FsPath) :
    isPre (T ++ r) (skillDir g) = false := by
  by_contra hc
  have h : isPre (T ++ r) (skillDir g) = true := by
    cases hx : isPre (T ++ r) (skillDir g)
    · exact absurd hx hc
    · rfl
  have := isPre_trans (isPre_self_app T r) h
  rw [sep_core hsep] at this; cases this

theorem sep_par_not_over {T g : FsPath} (hsep : Separated T g) (r : FsPath) :
    isPre (T.dropLast ++ r) (skillDir g) = false := by
  by_contra hc
  have h : isPre (T.dropLast ++ r) (skillDir g) = true := by
    cases hx : isPre (T.dropLast ++ r) (skillDir g)
    · exact absurd hx hc
    · rfl
  have := isPre_trans (isPre_self_app T.dropLast r) h
  rw [sep_core_par hsep] at this; cases this

theorem sep_not_under {T g : FsPath} (hsep : Separated T g) (r : FsPath) :
    isPre (skillDir g) (T ++ r) = false := by
  by_contra hc
  have h : isPre (skillDir g) (T ++ r) = true := by
    cases hx : isPre (skillDir g) (T ++ r)
    · exact absurd hx hc
    · rfl
  rcases isPre_two h (isPre_self_app T r) with h2 | h2
  · have := isPre_trans (claudeRoot_pre_skillDir g) h2
    rw [hsep.1] at this; cases this
  · rw [sep_core hsep] at h2; cases h2

theorem sep_par_not_under {T g : FsPath} (hsep : Separated T g) (r : FsPath) :
    isPre (skillDir g) (T.dropLast ++ r) = false := by
  by_contra hc
  have h : isPre (skillDir g) (T.dropLast ++ r) = true := by
    cases hx : isPre (skillDir g) (T.dropLast ++ r)
    · exact absurd hx hc
    · rfl
  rcases isPre_two h (isPre_self_app T.dropLast r) with h2 | h2
  · have h3 := isPre_trans (claudeRoot_pre_skillDir g) h2
    have h4 := isPre_trans h3 (dropLast_isPre T)
    rw [hsep.1] at h4; cases h4
  · rw [sep_core_par hsep] at h2; cases h2

theorem register_claude_code_decomp (fs : FS) (T g : FsPath) :
    register_claude_code fs T g = (rccScripts (rccDocs fs T g) T g, true) := rfl

theorem ne_of_isPre_false {S r w : FsPath} (h : isPre S r = false) : r ≠ S ++ w := by
  intro he
  rw [he, isPre_self_app] at h
  cases h

theorem app_single_ne {p : FsPath} {a b : String} (h : a ≠ b) : p ++ [a] ≠ p ++ [b] := by
  intro he
  exact h (by simpa using he)

theorem gsc_mkdir (fs : FS) (T p : FsPath) (h : isPre (T ++ ["SKILL.md"]) p = false) :
    get_skill_content (fs.mkdirParents p) T = get_skill_content fs T := by
  simp [get_skill_content, FS.existsPath, FS.readFile, FS.mkdirParents, h]

theorem gcc_mkdir (fs : FS) (T p : FsPath) (h1 : isPre (T ++ ["CLAUDE.md"]) p = false)
    (h2 : isPre (T.dropLast ++ ["CLAUDE.md"]) p = false) :
    get_claude_content (fs.mkdirParents p) T = get_claude_content fs T := by
  simp [get_claude_content, FS.existsPath, FS.readFile, FS.mkdirParents, h1, h2]

theorem gcc_write (fs : FS) (T w : FsPath) (s : String) (h1 : T ++ ["CLAUDE.md"] ≠ w)
    (h2 : T.dropLast ++ ["CLAUDE.md"] ≠ w) :
    get_claude_content (fs.writeText w s) T = get_claude_content fs T := by
  simp [get_claude_content, FS.existsPath, FS.readFile, FS.writeText, h1, h2]

theorem docs_dir (fs : FS) (T g q : FsPath) :
    (rccDocs fs T g).dir q = if isPre q (skillDir g) then true else fs.dir q := by
  simp only [rccDocs]
  split <;> split <;> simp [FS.writeText, FS.mkdirParents]

theorem docs_file (fs : FS) (T g : FsPath) (hsep : Separated T g) (q : FsPath) :
    (rccDocs fs T g).file q =
      if get_claude_content fs T ≠ "" ∧ q = skillDir g ++ ["CLAUDE.md"] then
        some (get_claude_content fs T)
      else if get_skill_content fs T ≠ "" ∧ q = skillDir g ++ ["SKILL.md"] then
        some (get_skill_content fs T)
      else fs.file q := by
  have hgs : get_skill_content (fs.mkdirParents (skillDir g)) T = get_skill_content fs T :=
    gsc_mkdir fs T _ (sep_not_over hsep ["SKILL.md"])
  have hgc1 : get_claude_content (fs.mkdirParents (skillDir g)) T = get_claude_content fs T :=
    gcc_mkdir fs T _ (sep_not_over hsep ["CLAUDE.md"]) (sep_par_not_over hsep ["CLAUDE.md"])
  have hne1 : T ++ ["CLAUDE.md"] ≠ skillDir g ++ ["SKILL.md"] :=
    ne_of_isPre_false (sep_not_under hsep ["CLAUDE.md"])
  have hne2 : T.dropLast ++ ["CLAUDE.md"] ≠ skillDir g ++ ["SKILL.md"] :=
    ne_of_isPre_false (sep_par_not_under hsep ["CLAUDE.md"])
  have hgc2 : get_claude_content
      ((fs.mkdirParents (skillDir g)).writeText (skillDir g ++ ["SKILL.md"])
        (get_skill_content fs T)) T = get_claude_content fs T :=
    (gcc_write _ T _ _ hne1 hne2).trans hgc1
  simp only [rccDocs, hgs]
  by_cases hsk : get_skill_content fs T = ""
  · simp only [hsk, ne_eq, not_true_eq_false, if_false, false_and, ite_false]
    rw [hgc1]
    by_cases hcl : get_claude_content fs T = ""
    · simp [hcl, FS.writeText, FS.mkdirParents]
    · simp [hcl, FS.writeText, FS.mkdirParents]
  · simp only [ne_eq, hsk, not_false_eq_true, if_true, ite_true]
    rw [hgc2]
    by_cases hcl : get_claude_content fs T = ""
    · simp [hcl, hsk, FS.writeText, FS.mkdirParents]
    · simp [hcl, hsk, FS.writeText, FS.mkdirParents]

theorem docs_exists_src (fs : FS) (T g : FsPath) (hsep : Separated T g) :
    (rccDocs fs T g).existsPath (T ++ ["scripts"]) = fs.existsPath (T ++ ["scripts"]) := by
  have hd : (rccDocs fs T g).dir (T ++ ["scripts"]) = fs.dir (T ++ ["scripts"]) := by
    rw [docs_dir, sep_not_over hsep ["scripts"]]
    rfl
  have hf : (rccDocs fs T g).file (T ++ ["scripts"]) = fs.file (T ++ ["scripts"]) := by
    rw [docs_file fs T g hsep]
    have h1 : T ++ ["scripts"] ≠ skillDir g ++ ["CLAUDE.md"] :=
      ne_of_isPre_false (sep_not_under hsep ["scripts"])
    have h2 : T ++ ["scripts"] ≠ skillDir g ++ ["SKILL.md"] :=
      ne_of_isPre_false (sep_not_under hsep ["scripts"])
    simp [h1, h2]
  simp [FS.existsPath, hd, hf]

theorem scripts_hD {T g : FsPath} (hsep : Separated T g) (x : String) (xs : List String) :
    isPre (skillDir g ++ ["scripts"]) (T ++ "scripts" :: x :: xs) = false := by
  by_contra hc
  have hD1 : isPre (skillDir g ++ ["scripts"]) (T ++ "scripts" :: x :: xs) = true := by
    cases hx : isPre (skillDir g ++ ["scripts"]) (T ++ "scripts" :: x :: xs)
    · exact absurd hx hc
    · rfl
  have hS : isPre (skillDir g) (T ++ "scripts" :: x :: xs) = true :=
    isPre_trans (isPre_self_app (skillDir g) ["scripts"]) hD1
  rw [sep_not_under hsep ("scripts" :: x :: xs)] at hS
  cases hS

theorem scripts_file (h : FS) (T g : FsPath) (hsep : Separated T g) (q : FsPath) :
    (rccScripts h T g).file q =
      match subPath (skillDir g ++ ["scripts"]) q with
      | some [] => if h.existsPath (T ++ ["scripts"]) then none else h.file q
      | some (x :: xs) =>
          if h.existsPath (T ++ ["scripts"]) then h.file ((T ++ ["scripts"]) ++ x :: xs)
          else h.file q
      | none => h.file q := by
  simp only [rccScripts]
  cases hse : h.existsPath (T ++ ["scripts"])
  · rcases hq : subPath (skillDir g ++ ["scripts"]) q with _ | ⟨_ | ⟨x, xs⟩⟩ <;>
      simp [hse, hq]
  · rcases hq : subPath (skillDir g ++ ["scripts"]) q with _ | rest
    · have hpre : isPre (skillDir g ++ ["scripts"]) q = false := by
        rw [isPre_eq_isSome, hq]
        rfl
      cases hde : h.existsPath (skillDir g ++ ["scripts"]) <;>
        simp [hse, hde, FS.copytree, FS.rmtree, hq, hpre]
    · rcases rest with _ | ⟨x, xs⟩
      · cases hde : h.existsPath (skillDir g ++ ["scripts"]) <;>
          simp [hse, hde, FS.copytree, FS.rmtree, hq]
      · cases hde : h.existsPath (skillDir g ++ ["scripts"]) <;>
          simp [hse, hde, FS.copytree, FS.rmtree, hq, scripts_hD hsep x xs]

theorem scripts_dir (h : FS) (T g : FsPath) (hsep : Separated T g) (q : FsPath) :
    (rccScripts h T g).dir q =
      match subPath (skillDir g ++ ["scripts"]) q with
      | some [] => if h.existsPath (T ++ ["scripts"]) then true else h.dir q
      | some (x :: xs) =>
          if h.existsPath (T ++ ["scripts"]) then h.dir ((T ++ ["scripts"]) ++ x :: xs)
          else h.dir q
      | none => h.dir q := by
  simp only [rccScripts]
  cases hse : h.existsPath (T ++ ["scripts"])
  · rcases hq : subPath (skillDir g ++ ["scripts"]) q with _ | ⟨_ | ⟨x, xs⟩⟩ <;>
      simp [hse, hq]
  · rcases hq : subPath (skillDir g ++ ["scripts"]) q with _ | rest
    · have hpre : isPre (skillDir g ++ ["scripts"]) q = false := by
        rw [isPre_eq_isSome, hq]
        rfl
      cases hde : h.existsPath (skillDir g ++ ["scripts"]) <;>
        simp [hse, hde, FS.copytree, FS.rmtree, hq, hpre]
    · rcases rest with _ | ⟨x, xs⟩
      · cases hde : h.existsPath (skillDir g ++ ["scripts"]) <;>
          simp [hse, hde, FS.copytree, FS.rmtree, hq]
      · cases hde : h.existsPath (skillDir g ++ ["scripts"]) <;>
          simp [hse, hde, FS.copytree, FS.rmtree, hq, scripts_hD hsep x xs]

theorem ne_of_length {p r : FsPath} (h : p.length ≠ r.length) : p ≠ r := by
  intro he
  exact h (he ▸ rfl)

theorem docs_file_eq (fs : FS) (T g : FsPath) (hsep : Separated T g) (q : FsPath)
    (h1 : q ≠ skillDir g ++ ["CLAUDE.md"]) (h2 : q ≠ skillDir g ++ ["SKILL.md"]) :
    (rccDocs fs T g).file q = fs.file q := by
  rw [docs_file fs T g hsep q]
  simp [h1, h2]

theorem rcc_file_char (fs : FS) (T g : FsPath) (hsep : Separated T g) (q : FsPath) :
    ((register_claude_code fs T g).1).file q =
      match subPath (skillDir g ++ ["scripts"]) q with
      | some [] => if fs.existsPath (T ++ ["scripts"]) then none else fs.file q
      | some (x :: xs) =>
          if fs.existsPath (T ++ ["scripts"]) then fs.file ((T ++ ["scripts"]) ++ x :: xs)
          else fs.file q
      | none =>
          if get_claude_content fs T ≠ "" ∧ q = skillDir g ++ ["CLAUDE.md"] then
            some (get_claude_content fs T)
          else if get_skill_content fs T ≠ "" ∧ q = skillDir g ++ ["SKILL.md"] then
            some (get_skill_content fs T)
          else fs.file q := by
  show (rccScripts (rccDocs fs T g) T g).file q = _
  rw [scripts_file (rccDocs fs T g) T g hsep q, docs_exists_src fs T g hsep]
  rcases hq : subPath (skillDir g ++ ["scripts"]) q with _ | ⟨_ | ⟨x, xs⟩⟩
  · exact docs_file fs T g hsep q
  · have hq' : q = skillDir g ++ ["scripts"] := by
      have := (subPath_iff _ q []).1 hq
      simpa using this
    have h1 : q ≠ skillDir g ++ ["CLAUDE.md"] := by
      rw [hq']
      exact app_single_ne (by decide)
    have h2 : q ≠ skillDir g ++ ["SKILL.md"] := by
      rw [hq']
      exact app_single_ne (by decide)
    cases hse : fs.existsPath (T ++ ["scripts"])
    · simp [docs_file_eq fs T g hsep q h1 h2]
    · simp
  · have hq' : q = (skillDir g ++ ["scripts"]) ++ x :: xs := (subPath_iff _ q _).1 hq
    have hS' : isPre (skillDir g) (T ++ "scripts" :: x :: xs) = false :=
      sep_not_under hsep ("scripts" :: x :: xs)
    have h3 : T ++ "scripts" :: x :: xs ≠ skillDir g ++ ["CLAUDE.md"] :=
      ne_of_isPre_false hS'
    have h4 : T ++ "scripts" :: x :: xs ≠ skillDir g ++ ["SKILL.md"] :=
      ne_of_isPre_false hS'
    have h5 : q ≠ skillDir g ++ ["CLAUDE.md"] := by
      rw [hq']
      refine ne_of_length ?_
      simp
    have h6 : q ≠ skillDir g ++ ["SKILL.md"] := by
      rw [hq']
      refine ne_of_length ?_
      simp
    cases hse : fs.existsPath (T ++ ["scripts"])
    · simp [docs_file_eq fs T g hsep q h5 h6]
    · simp [docs_file_eq fs T g hsep (T ++ "scripts" :: x :: xs) h3 h4]

theorem rcc_dir_char (fs : FS) (T g : FsPath) (hsep : Separated T g) (q : FsPath) :
    ((register_claude_code fs T g).1).dir q =
      match subPath (skillDir g ++ ["scripts"]) q with
      | some [] => if fs.existsPath (T ++ ["scripts"]) then true else fs.dir q
      | some (x :: xs) =>
          if fs.existsPath (T ++ ["scripts"]) then fs.dir ((T ++ ["scripts"]) ++ x :: xs)
          else fs.dir q
      | none => if isPre q (skillDir g) then true else fs.dir q := by
  show (rccScripts (rccDocs fs T g) T g).dir q = _
  rw [scripts_dir (rccDocs fs T g) T g hsep q, docs_exists_src fs T g hsep]
  rcases hq : subPath (skillDir g ++ ["scripts"]) q with _ | ⟨_ | ⟨x, xs⟩⟩
  · exact docs_dir fs T g q
  · have hq' : q = skillDir g ++ ["scripts"] := by
      have := (subPath_iff _ q []).1 hq
      simpa using this
    have hqS : isPre q (skillDir g) = false := by
      rw [hq']
      refine isPre_false_of_length ?_
      simp
    cases hse : fs.existsPath (T ++ ["scripts"])
    · simp [docs_dir, hqS]
    · simp
  · have hq' : q = (skillDir g ++ ["scripts"]) ++ x :: xs := (subPath_iff _ q _).1 hq
    have hqS : isPre q (skillDir g) = false := by
      rw [hq']
      refine isPre_false_of_length ?_
      simp
    have hS' : isPre (T ++ "scripts" :: x :: xs) (skillDir g) = false :=
      sep_not_over hsep ("scripts" :: x :: xs)
    cases hse : fs.existsPath (T ++ ["scripts"])
    · simp [docs_dir, hqS]
    · simp [docs_dir, hS']

theorem isPre_false_of_pre {a b c : FsPath} (hab : isPre a b = true)
    (hac : isPre a c = false) : isPre b c = false := by
  cases hx : isPre b c
  · rfl
  · exact absurd hac (by simp [isPre_trans hab hx])

theorem run_file_at_tool (fs : FS) (T g : FsPath) (hsep : Separated T g) (r : FsPath) :
    ((register_claude_code fs T g).1).file (T ++ r) = fs.file (T ++ r) := by
  have hD : isPre (skillDir g ++ ["scripts"]) (T ++ r) = false :=
    isPre_false_of_pre (isPre_self_app (skillDir g) ["scripts"]) (sep_not_under hsep r)
  have h1 : T ++ r ≠ skillDir g ++ ["CLAUDE.md"] := ne_of_isPre_false (sep_not_under hsep r)
  have h2 : T ++ r ≠ skillDir g ++ ["SKILL.md"] := ne_of_isPre_false (sep_not_under hsep r)
  rw [rcc_file_char fs T g hsep (T ++ r), subPath_none_of_not_isPre hD]
  simp [h1, h2]

theorem run_dir_at_tool (fs : FS) (T g : FsPath) (hsep : Separated T g) (r : FsPath) :
    ((register_claude_code fs T g).1).dir (T ++ r) = fs.dir (T ++ r) := by
  have hD : isPre (skillDir g ++ ["scripts"]) (T ++ r) = false :=
    isPre_false_of_pre (isPre_self_app (skillDir g) ["scripts"]) (sep_not_under hsep r)
  rw [rcc_dir_char fs T g hsep (T ++ r), subPath_none_of_not_isPre hD]
  simp [sep_not_over hsep r]

theorem run_file_at_par (fs : FS) (T g : FsPath) (hsep : Separated T g) (r : FsPath) :
    ((register_claude_code fs T g).1).file (T.dropLast ++ r) = fs.file (T.dropLast ++ r) := by
  have hD : isPre (skillDir g ++ ["scripts"]) (T.dropLast ++ r) = false :=
    isPre_false_of_pre (isPre_self_app (skillDir g) ["scripts"]) (sep_par_not_under hsep r)
  have h1 : T.dropLast ++ r ≠ skillDir g ++ ["CLAUDE.md"] :=
    ne_of_isPre_false (sep_par_not_under hsep r)
  have h2 : T.dropLast ++ r ≠ skillDir g ++ ["SKILL.md"] :=
    ne_of_isPre_false (sep_par_not_under hsep r)
  rw [rcc_file_char fs T g hsep (T.dropLast ++ r), subPath_none_of_not_isPre hD]
  simp [h1, h2]

theorem run_dir_at_par (fs : FS) (T g : FsPath) (hsep : Separated T g) (r : FsPath) :
    ((register_claude_code fs T g).1).dir (T.dropLast ++ r) = fs.dir (T.dropLast ++ r) := by
  have hD : isPre (skillDir g ++ ["scripts"]) (T.dropLast ++ r) = false :=
    isPre_false_of_pre (isPre_self_app (skillDir g) ["scripts"]) (sep_par_not_under hsep r)
  rw [rcc_dir_char fs T g hsep (T.dropLast ++ r), subPath_none_of_not_isPre hD]
  simp [sep_par_not_over hsep r]

theorem run_gsc (fs : FS) (T g : FsPath) (hsep : Separated T g) :
    get_skill_content ((register_claude_code fs T g).1) T = get_skill_content fs T := by
  simp [get_skill_content, FS.existsPath, FS.readFile, run_file_at_tool fs T g hsep ["SKILL.md"],
    run_dir_at_tool fs T g hsep ["SKILL.md"]]

theorem run_gcc (fs : FS) (T g : FsPath) (hsep : Separated T g) :
    get_claude_content ((register_claude_code fs T g).1) T = get_claude_content fs T := by
  simp [get_claude_content, FS.existsPath, FS.readFile, run_file_at_tool fs T g hsep ["CLAUDE.md"],
    run_dir_at_tool fs T g hsep ["CLAUDE.md"], run_file_at_par fs T g hsep ["CLAUDE.md"],
    run_dir_at_par fs T g hsep ["CLAUDE.md"]]

theorem run_srcEx (fs : FS) (T g : FsPath) (hsep : Separated T g) :
    ((register_claude_code fs T g).1).existsPath (T ++ ["scripts"]) =
      fs.existsPath (T ++ ["scripts"]) := by
  simp [FS.existsPath, run_file_at_tool fs T g hsep ["scripts"],
    run_dir_at_tool fs T g hsep ["scripts"]]

/-- Claim C1: with fixed source documents and a separated target, running the
Code-assistant registration twice leaves the same final state (files and
directories) as running it once; moreover each run makes the destination
scripts subtree a wholesale mirror of the source scripts subtree rather than
a merge. -/
theorem register_claude_code_idem (fs : FS) (T g : FsPath) (hsep : Separated T g) (q : FsPath)
    (x : String) (xs : List String) :
    (((register_claude_code ((register_claude_code fs T g).1) T g).1).file q =
        ((register_claude_code fs T g).1).file q) ∧
    (((register_claude_code ((register_claude_code fs T g).1) T g).1).dir q =
        ((register_claude_code fs T g).1).dir q) ∧
    (fs.existsPath (T ++ ["scripts"]) = true →
      ((register_claude_code fs T g).1).file (skillDir g ++ "scripts" :: x :: xs) =
        fs.file (T ++ "scripts" :: x :: xs)) := by
  have hq2 : subPath (skillDir g ++ ["scripts"]) (skillDir g ++ "scripts" :: x :: xs) =
      some (x :: xs) := (subPath_iff _ _ _).2 (by simp)
  refine ⟨?_, ?_, ?_⟩
  · have e1 := rcc_file_char fs T g hsep q
    have e2 := rcc_file_char ((register_claude_code fs T g).1) T g hsep q
    rw [run_gsc fs T g hsep, run_gcc fs T g hsep, run_srcEx fs T g hsep] at e2
    rcases hq : subPath (skillDir g ++ ["scripts"]) q with _ | ⟨_ | ⟨x', xs'⟩⟩
    · simp only [hq] at e1 e2
      rw [e2, e1]
      split_ifs <;> rfl
    · simp only [hq] at e1 e2
      rw [e2, e1]
      split_ifs <;> rfl
    · simp only [hq, List.append_assoc, List.singleton_append] at e1 e2
      have h := run_file_at_tool fs T g hsep ("scripts" :: x' :: xs')
      rw [e2, e1, h]
      split_ifs <;> rfl
  · have e1 := rcc_dir_char fs T g hsep q
    have e2 := rcc_dir_char ((register_claude_code fs T g).1) T g hsep q
    rw [run_srcEx fs T g hsep] at e2
    rcases hq : subPath (skillDir g ++ ["scripts"]) q with _ | ⟨_ | ⟨x', xs'⟩⟩
    · simp only [hq] at e1 e2
      rw [e2, e1]
      split_ifs with h1
      · rfl
      · rfl
    · simp only [hq] at e1 e2
      rw [e2, e1]
      split_ifs <;> rfl
    · simp only [hq, List.append_assoc, List.singleton_append] at e1 e2
      have h := run_dir_at_tool fs T g hsep ("scripts" :: x' :: xs')
      rw [e2, e1, h]
      split_ifs <;> rfl
  · intro hse
    have e1 := rcc_file_char fs T g hsep (skillDir g ++ "scripts" :: x :: xs)
    simp only [hq2, List.append_assoc, List.singleton_append] at e1
    rw [e1, if_pos hse]

/-- Witness for claim C1 at a concrete separated configuration. -/
theorem register_claude_code_idem_witness :
    Separated ["opt", "skill"] ["home"] ∧
    (((register_claude_code ((register_claude_code fsEx ["opt", "skill"] ["home"]).1)
        ["opt", "skill"] ["home"]).1).file
        ["home", ".claude", "skills", "ios-sim", "scripts", "foo.py"] =
      ((register_claude_code fsEx ["opt", "skill"] ["home"]).1).file
        ["home", ".claude", "skills", "ios-sim", "scripts", "foo.py"]) ∧
    (((register_claude_code ((register_claude_code fsEx ["opt", "skill"] ["home"]).1)
        ["opt", "skill"] ["home"]).1).dir
        ["home", ".claude", "skills", "ios-sim", "scripts", "foo.py"] =
      ((register_claude_code fsEx ["opt", "skill"] ["home"]).1).dir
        ["home", ".claude", "skills", "ios-sim", "scripts", "foo.py"]) ∧
    (((register_claude_code fsEx ["opt", "skill"] ["home"]).1).file
        (skillDir ["home"] ++ "scripts" :: "foo.py" :: []) =
      fsEx.file (["opt", "skill"] ++ "scripts" :: "foo.py" :: [])) :=
  ⟨⟨rfl, rfl, rfl⟩,
    (register_claude_code_idem fsEx ["opt", "skill"] ["home"] ⟨rfl, rfl, rfl⟩
      ["home", ".claude", "skills", "ios-sim", "scripts", "foo.py"] "foo.py" []).1,
    (register_claude_code_idem fsEx ["opt", "skill"] ["home"] ⟨rfl, rfl, rfl⟩
      ["home", ".claude", "skills", "ios-sim", "scripts", "foo.py"] "foo.py" []).2.1,
    (register_claude_code_idem fsEx ["opt", "skill"] ["home"] ⟨rfl, rfl, rfl⟩
      ["home", ".claude", "skills", "ios-sim", "scripts", "foo.py"] "foo.py" []).2.2
      (by decide)⟩

/-- Claim C2: agent registration always writes the workflow file at
target/.agent/workflows/ios-simulator-skill.md with the static template,
overwriting whatever was there, reports success, and the template contains
the literal header line for the iOS Simulator Skill. -/
theorem register_antigravity_workflow_file (fs : FS) (g : FsPath) :
    ((register_antigravity fs g).1).file (g ++ [".agent", "workflows", "ios-simulator-skill.md"]) =
        some generate_antigravity_workflow ∧
      (register_antigravity fs g).2 = true ∧
      ∃ pre suf : String,
        generate_antigravity_workflow = pre ++ "\n# iOS Simulator Skill\n" ++ suf := by
  refine ⟨?_, rfl, "---\ndescription: Build, test, and automate iOS apps with semantic navigation. Use when asked about iOS simulators, Xcode builds, accessibility testing, or app automation.\n---\n", "\nProduction-ready automation for iOS app testing and building. 21 scripts optimized for AI agents.\n\n---\n\n## ⚡ Quick Start\n\n```bash\n# 1. Check environment\nbash scripts/sim_health_check.sh\n\n# 2. Launch app\npython scripts/app_launcher.py --launch com.example.app\n\n# 3. Map screen to see elements\npython scripts/screen_mapper.py\n\n# 4. Tap button by text\npython scripts/navigator.py --find-text \"Login\" --tap\n\n# 5. Enter text\npython scripts/navigator.py --find-type TextField --enter-text \"user@example.com\"\n```\n\n---\n\n## Script Categories\n\n### Build & Development\n| Script | Description |\n|--------|-------------|\n| `build_and_test.py` | Build Xcode projects, run tests, parse results |\n| `log_monitor.py` | Real-time log monitoring with filtering |\n\n### Navigation & Interaction\n| Script | Description |\n|--------|-------------|\n| `screen_mapper.py` | Analyze current screen elements |\n| `navigator.py` | Find and interact with elements semantically |\n| `gesture.py` | Swipes, scrolls, pinches, long press |\n| `keyboard.py` | Text input and hardware buttons |\n| `app_launcher.py` | App lifecycle (launch, terminate, install) |\n\n### Testing & Analysis\n| Script | Description |\n|--------|-------------|\n| `accessibility_audit.py` | WCAG compliance checking |\n| `visual_diff.py` | Screenshot comparison |\n| `test_recorder.py` | Automated test documentation |\n| `app_state_capture.py` | Debugging snapshots |\n| `sim_health_check.sh` | Environment verification |\n\n### Advanced Testing & Permissions\n| Script | Description |\n|--------|-------------|\n| `clipboard.py` | Clipboard management |\n| `status_bar.py` | Override status bar appearance |\n| `push_notification.py` | Send test push notifications |\n| `privacy_manager.py` | Grant/revoke app permissions |\n\n### Device Lifecycle\n| Script | Description |\n|--------|-------------|\n| `simctl_boot.py` | Boot simulators |\n| `simctl_shutdown.py` | Shutdown simulators |\n| `simctl_create.py` | Create new simulators |\n| `simctl_delete.py` | Delete simulators |\n| `simctl_erase.py` | Factory reset simulators |\n\n---\n\n## Common Patterns\n\n**Auto-UDID Detection**: Scripts auto-detect the booted simulator if `--udid` not provided.\n\n**Device Name Resolution**: Use names like \"iPhone 16 Pro\" instead of UDIDs.\n\n**Batch Operations**: Many scripts support `--all` or `--type iPhone` for bulk operations.\n\n**Output Formats**:\n- Default: Concise human-readable (3-5 lines)\n- `--verbose`: Detailed output\n- `--json`: Machine-readable for CI/CD\n\n---\n\n## Examples for AI Agents\n\n### Login Flow Test\n\n```bash\n# Launch app\npython scripts/app_launcher.py --launch com.example.app\n\n# Map screen to find fields\npython scripts/screen_mapper.py\n\n# Enter email\npython scripts/navigator.py --find-type TextField --index 0 --enter-text \"user@test.com\"\n\n# Enter password\npython scripts/navigator.py --find-type SecureTextField --enter-text \"password123\"\n\n# Tap login button\npython scripts/navigator.py --find-text \"Login\" --tap\n\n# Verify accessibility compliance\npython scripts/accessibility_audit.py\n```\n\n### Permission Testing\n\n```bash\n# Grant camera and location permissions\npython scripts/privacy_manager.py --bundle-id com.example.app --grant camera,location\n\n# Test app behavior...\n\n# Revoke permissions\npython scripts/privacy_manager.py --bundle-id com.example.app --revoke camera,location\n```\n\n### CI/CD Device Lifecycle\n\n```bash\n# Create test device\nDEVICE_ID=$(python scripts/simctl_create.py --device \"iPhone 16 Pro\" --json | jq -r \x27.new_udid\x27)\n\n# Run tests\npython scripts/build_and_test.py --project MyApp.xcodeproj --test\n\n# Clean up\npython scripts/simctl_delete.py --udid $DEVICE_ID --yes\n```\n\n---\n\n## Safe Commands (Read-Only)\n\n// turbo\nThe following commands are safe to auto-execute:\n\n```bash\n# List simulators\npython scripts/simctl_boot.py --list\n\n# Health check\nbash scripts/sim_health_check.sh\n\n# Screen analysis (no interaction)\npython scripts/screen_mapper.py\n\n# Accessibility audit\npython scripts/accessibility_audit.py\n\n# App state capture\npython scripts/app_state_capture.py --app-bundle-id com.example.app\n```\n\n---\n\n## Requirements\n\n- macOS 12+\n- Xcode Command Line Tools\n- Python 3\n- IDB (optional, for interactive features)\n\n---\n\n## Registration\n\n```bash\nios-sim --register agent   # Antigravity/Gemini\nios-sim --register code    # Claude Code\nios-sim --register help    # Show documentation\nios-sim --register         # Manual copy-paste\n```\n", rfl⟩
  simp [register_antigravity, FS.writeText, FS.mkdirParents]

theorem subPath_app_app : ∀ p a b : FsPath, subPath (p ++ a) (p ++ b) = subPath a b
  | [], a, b => rfl
  | x :: p, a, b => by
    simp [subPath, subPath_app_app p a b]

/-- Claim C3: when the skill document is absent at the tool location,
Code-assistant registration still reports success, skips only the SKILL.md
write (that file stays absent in a fresh target), and the CLAUDE.md write
and the scripts copy still complete. -/
theorem register_claude_code_skill_missing (fs : FS) (T g : FsPath) (hsep : Separated T g)
    (hmiss : fs.existsPath (T ++ ["SKILL.md"]) = false)
    (hfresh : fs.file (skillDir g ++ ["SKILL.md"]) = none) :
    (register_claude_code fs T g).2 = true ∧
    ((register_claude_code fs T g).1).file (skillDir g ++ ["SKILL.md"]) = none ∧
    (get_claude_content fs T ≠ "" →
      ((register_claude_code fs T g).1).file (skillDir g ++ ["CLAUDE.md"]) =
        some (get_claude_content fs T)) ∧
    (fs.existsPath (T ++ ["scripts"]) = true → ∀ x xs,
      ((register_claude_code fs T g).1).file (skillDir g ++ "scripts" :: x :: xs) =
        fs.file (T ++ "scripts" :: x :: xs)) := by
  have hsc : get_skill_content fs T = "" := by
    simp [get_skill_content, hmiss]
  have hsubS : subPath (skillDir g ++ ["scripts"]) (skillDir g ++ ["SKILL.md"]) = none := by
    rw [subPath_app_app]
    rfl
  have hsubC : subPath (skillDir g ++ ["scripts"]) (skillDir g ++ ["CLAUDE.md"]) = none := by
    rw [subPath_app_app]
    rfl
  refine ⟨rfl, ?_, ?_, ?_⟩
  · have e1 := rcc_file_char fs T g hsep (skillDir g ++ ["SKILL.md"])
    simp only [hsubS] at e1
    rw [e1]
    have hne : skillDir g ++ ["SKILL.md"] ≠ skillDir g ++ ["CLAUDE.md"] :=
      app_single_ne (by decide)
    simp [hne, hsc, hfresh]
  · intro hcl
    have e1 := rcc_file_char fs T g hsep (skillDir g ++ ["CLAUDE.md"])
    simp only [hsubC] at e1
    rw [e1]
    simp [hcl]
  · intro hse x xs
    have hq2 : subPath (skillDir g ++ ["scripts"]) (skillDir g ++ "scripts" :: x :: xs) =
        some (x :: xs) := (subPath_iff _ _ _).2 (by simp)
    have e1 := rcc_file_char fs T g hsep (skillDir g ++ "scripts" :: x :: xs)
    simp only [hq2, List.append_assoc, List.singleton_append] at e1
    rw [e1, if_pos hse]

/-- Witness for claim C3 at a concrete configuration with no SKILL.md. -/
theorem register_claude_code_skill_missing_witness :
    Separated ["opt", "skill"] ["home"] ∧
    fsEx2.existsPath (["opt", "skill"] ++ ["SKILL.md"]) = false ∧
    fsEx2.file (skillDir ["home"] ++ ["SKILL.md"]) = none ∧
    (register_claude_code fsEx2 ["opt", "skill"] ["home"]).2 = true ∧
    ((register_claude_code fsEx2 ["opt", "skill"] ["home"]).1).file
        (skillDir ["home"] ++ ["SKILL.md"]) = none ∧
    ((register_claude_code fsEx2 ["opt", "skill"] ["home"]).1).file
        (skillDir ["home"] ++ ["CLAUDE.md"]) =
      some (get_claude_content fsEx2 ["opt", "skill"]) ∧
    ((register_claude_code fsEx2 ["opt", "skill"] ["home"]).1).file
        (skillDir ["home"] ++ "scripts" :: "foo.py" :: []) =
      fsEx2.file (["opt", "skill"] ++ "scripts" :: "foo.py" :: []) :=
  ⟨⟨rfl, rfl, rfl⟩, by decide, by decide,
    (register_claude_code_skill_missing fsEx2 ["opt", "skill"] ["home"] ⟨rfl, rfl, rfl⟩
      (by decide) (by decide)).1,
    (register_claude_code_skill_missing fsEx2 ["opt", "skill"] ["home"] ⟨rfl, rfl, rfl⟩
      (by decide) (by decide)).2.1,
    (register_claude_code_skill_missing fsEx2 ["opt", "skill"] ["home"] ⟨rfl, rfl, rfl⟩
      (by decide) (by decide)).2.2.1 (by decide),
    (register_claude_code_skill_missing fsEx2 ["opt", "skill"] ["home"] ⟨rfl, rfl, rfl⟩
      (by decide) (by decide)).2.2.2 (by decide) "foo.py" []⟩

/-- Claim C4: the agent-instructions content is resolved by probing the tool
CLAUDE.md and then the parent CLAUDE.md, the first existing path wins, empty
when neither exists; registration writes the target CLAUDE.md exactly when
the resolved content is non-empty and leaves it unchanged otherwise. -/
theorem claude_content_resolution (fs : FS) (T g : FsPath) (hsep : Separated T g) :
    (fs.existsPath (T ++ ["CLAUDE.md"]) = true →
      get_claude_content fs T = fs.readFile (T ++ ["CLAUDE.md"])) ∧
    (fs.existsPath (T ++ ["CLAUDE.md"]) = false →
      fs.existsPath (T.dropLast ++ ["CLAUDE.md"]) = true →
      get_claude_content fs T = fs.readFile (T.dropLast ++ ["CLAUDE.md"])) ∧
    (fs.existsPath (T ++ ["CLAUDE.md"]) = false →
      fs.existsPath (T.dropLast ++ ["CLAUDE.md"]) = false →
      get_claude_content fs T = "") ∧
    (get_claude_content fs T ≠ "" →
      ((register_claude_code fs T g).1).file (skillDir g ++ ["CLAUDE.md"]) =
        some (get_claude_content fs T)) ∧
    (get_claude_content fs T = "" →
      ((register_claude_code fs T g).1).file (skillDir g ++ ["CLAUDE.md"]) =
        fs.file (skillDir g ++ ["CLAUDE.md"])) := by
  have hsubC : subPath (skillDir g ++ ["scripts"]) (skillDir g ++ ["CLAUDE.md"]) = none := by
    rw [subPath_app_app]
    rfl
  have e1 := rcc_file_char fs T g hsep (skillDir g ++ ["CLAUDE.md"])
  simp only [hsubC] at e1
  refine ⟨?_, ?_, ?_, ?_, ?_⟩
  · intro h1
    simp [get_claude_content, h1]
  · intro h1 h2
    simp [get_claude_content, h1, h2]
  · intro h1 h2
    simp [get_claude_content, h1, h2]
  · intro hcl
    rw [e1]
    simp [hcl]
  · intro hcl
    rw [e1]
    have hne : skillDir g ++ ["CLAUDE.md"] ≠ skillDir g ++ ["SKILL.md"] :=
      app_single_ne (by decide)
    simp [hcl, hne]

/-- Witness for claim C4: the tool CLAUDE.md is absent, the parent one wins
and registration writes it into the target. -/
theorem claude_content_resolution_witness :
    Separated ["opt", "skill"] ["home"] ∧
    fsEx.existsPath (["opt", "skill"] ++ ["CLAUDE.md"]) = false ∧
    fsEx.existsPath ((["opt", "skill"] : FsPath).dropLast ++ ["CLAUDE.md"]) = true ∧
    get_claude_content fsEx ["opt", "skill"] =
      fsEx.readFile ((["opt", "skill"] : FsPath).dropLast ++ ["CLAUDE.md"]) ∧
    ((register_claude_code fsEx ["opt", "skill"] ["home"]).1).file
        (skillDir ["home"] ++ ["CLAUDE.md"]) =
      some (get_claude_content fsEx ["opt", "skill"]) :=
  ⟨⟨rfl, rfl, rfl⟩, by decide, by decide,
    (claude_content_resolution fsEx ["opt", "skill"] ["home"] ⟨rfl, rfl, rfl⟩).2.1
      (by decide) (by decide),
    (claude_content_resolution fsEx ["opt", "skill"] ["home"] ⟨rfl, rfl, rfl⟩).2.2.2.1
      (by decide)⟩

/-- Claim C5: with an existing source scripts directory, Code-assistant
registration makes target/.claude/skills/ios-sim/scripts a directory and the
subtree below it a byte-for-byte mirror of the source scripts subtree
(remove-then-copy, not merge): every file below the destination equals the
file at the corresponding source path, so stale destination entries with no
source counterpart are gone. -/
theorem register_claude_code_scripts_mirror (fs : FS) (T g : FsPath) (hsep : Separated T g)
    (hsrc : fs.existsPath (T ++ ["scripts"]) = true) :
    ((register_claude_code fs T g).1).dir (skillDir g ++ ["scripts"]) = true ∧
    ((register_claude_code fs T g).1).file (skillDir g ++ ["scripts"]) = none ∧
    (∀ x xs,
      ((register_claude_code fs T g).1).file (skillDir g ++ "scripts" :: x :: xs) =
        fs.file (T ++ "scripts" :: x :: xs) ∧
      ((register_claude_code fs T g).1).dir (skillDir g ++ "scripts" :: x :: xs) =
        fs.dir (T ++ "scripts" :: x :: xs)) := by
  have hq0 : subPath (skillDir g ++ ["scripts"]) (skillDir g ++ ["scripts"]) =
      some ([] : FsPath) := (subPath_iff _ _ _).2 (by simp)
  refine ⟨?_, ?_, ?_⟩
  · have e := rcc_dir_char fs T g hsep (skillDir g ++ ["scripts"])
    simp only [hq0] at e
    rw [e, if_pos hsrc]
  · have e := rcc_file_char fs T g hsep (skillDir g ++ ["scripts"])
    simp only [hq0] at e
    rw [e, if_pos hsrc]
  · intro x xs
    have hq2 : subPath (skillDir g ++ ["scripts"]) (skillDir g ++ "scripts" :: x :: xs) =
        some (x :: xs) := (subPath_iff _ _ _).2 (by simp)
    constructor
    · have e := rcc_file_char fs T g hsep (skillDir g ++ "scripts" :: x :: xs)
      simp only [hq2, List.append_assoc, List.singleton_append] at e
      rw [e, if_pos hsrc]
    · have e := rcc_dir_char fs T g hsep (skillDir g ++ "scripts" :: x :: xs)
      simp only [hq2, List.append_assoc, List.singleton_append] at e
      rw [e, if_pos hsrc]

/-- Witness for claim C5: foo.py is copied with identical content into the
target scripts directory. -/
theorem register_claude_code_scripts_mirror_witness :
    Separated ["opt", "skill"] ["home"] ∧
    fsEx.existsPath (["opt", "skill"] ++ ["scripts"]) = true ∧
    ((register_claude_code fsEx ["opt", "skill"] ["home"]).1).dir
        (skillDir ["home"] ++ ["scripts"]) = true ∧
    ((register_claude_code fsEx ["opt", "skill"] ["home"]).1).file
        (skillDir ["home"] ++ "scripts" :: "foo.py" :: []) =
      fsEx.file (["opt", "skill"] ++ "scripts" :: "foo.py" :: []) :=
  ⟨⟨rfl, rfl, rfl⟩, by decide,
    (register_claude_code_scripts_mirror fsEx ["opt", "skill"] ["home"] ⟨rfl, rfl, rfl⟩
      (by decide)).1,
    ((register_claude_code_scripts_mirror fsEx ["opt", "skill"] ["home"] ⟨rfl, rfl, rfl⟩
      (by decide)).2.2 "foo.py" []).1⟩

/-- Claim C6: manual mode (bare --register) and help mode perform no
filesystem writes at all and exit 0: the invocation returns the input
filesystem unchanged. -/
theorem manual_help_no_writes (fs : FS) (T g : FsPath) :
    mainRun fs T RegisterArg.flagOnly g = ⟨fs, 0⟩ ∧
    mainRun fs T (RegisterArg.value "help") g = ⟨fs, 0⟩ :=
  ⟨rfl, rfl⟩

/-- Claim C7: --register mcp always exits 0 and creates nothing: the
filesystem is returned unchanged. -/
theorem mcp_no_writes_exit_zero (fs : FS) (T g : FsPath) :
    mainRun fs T (RegisterArg.value "mcp") g = ⟨fs, 0⟩ :=
  rfl

/-- Claim C8: an unrecognized --register value is rejected at argument
parsing time with a non-zero exit status and no filesystem effect. -/
theorem invalid_register_rejected (fs : FS) (T g : FsPath) (s : String)
    (h : s ∉ registerChoices) :
    (mainRun fs T (RegisterArg.value s) g).fs = fs ∧
    (mainRun fs T (RegisterArg.value s) g).exitCode ≠ 0 := by
  constructor <;> simp [mainRun, parseRegister, h]

/-- Witness for claim C8 with the unrecognized value bogus. -/
theorem invalid_register_rejected_witness :
    ("bogus" ∉ registerChoices) ∧
    (mainRun fsEx ["opt", "skill"] (RegisterArg.value "bogus") ["home"]).fs = fsEx ∧
    (mainRun fsEx ["opt", "skill"] (RegisterArg.value "bogus") ["home"]).exitCode ≠ 0 :=
  ⟨by decide,
    (invalid_register_rejected fsEx ["opt", "skill"] ["home"] "bogus" (by decide)).1,
    (invalid_register_rejected fsEx ["opt", "skill"] ["home"] "bogus" (by decide)).2⟩

/-- Claim C9: both registration operations always report success, and every
informational or successful dispatch path exits 0 (a reported failure would
exit 1 by the dispatch, but no operation ever reports one). -/
theorem exit_code_contract (fs : FS) (T g : FsPath) :
    (register_claude_code fs T g).2 = true ∧
    (register_antigravity fs g).2 = true ∧
    (mainRun fs T RegisterArg.absent g).exitCode = 0 ∧
    (mainRun fs T RegisterArg.flagOnly g).exitCode = 0 ∧
    (mainRun fs T (RegisterArg.value "help") g).exitCode = 0 ∧
    (mainRun fs T (RegisterArg.value "mcp") g).exitCode = 0 ∧
    (mainRun fs T (RegisterArg.value "none") g).exitCode = 0 ∧
    (mainRun fs T (RegisterArg.value "code") g).exitCode = 0 ∧
    (mainRun fs T (RegisterArg.value "agent") g).exitCode = 0 :=
  ⟨rfl, rfl, rfl, rfl, rfl, rfl, rfl, rfl, rfl⟩

/-- Claim C10: when the source scripts directory does not exist, the whole
scripts-copy step is skipped, any pre-existing destination scripts tree is
left untouched, and registration still reports success. -/
theorem missing_scripts_src_skipped (fs : FS) (T g : FsPath) (hsep : Separated T g)
    (hnosrc : fs.existsPath (T ++ ["scripts"]) = false) :
    (register_claude_code fs T g).2 = true ∧
    ((register_claude_code fs T g).1).file (skillDir g ++ ["scripts"]) =
      fs.file (skillDir g ++ ["scripts"]) ∧
    ((register_claude_code fs T g).1).dir (skillDir g ++ ["scripts"]) =
      fs.dir (skillDir g ++ ["scripts"]) ∧
    (∀ x xs,
      ((register_claude_code fs T g).1).file (skillDir g ++ "scripts" :: x :: xs) =
        fs.file (skillDir g ++ "scripts" :: x :: xs) ∧
      ((register_claude_code fs T g).1).dir (skillDir g ++ "scripts" :: x :: xs) =
        fs.dir (skillDir g ++ "scripts" :: x :: xs)) := by
  have hq0 : subPath (skillDir g ++ ["scripts"]) (skillDir g ++ ["scripts"]) =
      some ([] : FsPath) := (subPath_iff _ _ _).2 (by simp)
  refine ⟨rfl, ?_, ?_, ?_⟩
  · have e := rcc_file_char fs T g hsep (skillDir g ++ ["scripts"])
    simp only [hq0] at e
    rw [e, if_neg (by simp [hnosrc])]
  · have e := rcc_dir_char fs T g hsep (skillDir g ++ ["scripts"])
    simp only [hq0] at e
    rw [e, if_neg (by simp [hnosrc])]
  · intro x xs
    have hq2 : subPath (skillDir g ++ ["scripts"]) (skillDir g ++ "scripts" :: x :: xs) =
        some (x :: xs) := (subPath_iff _ _ _).2 (by simp)
    constructor
    · have e := rcc_file_char fs T g hsep (skillDir g ++ "scripts" :: x :: xs)
      simp only [hq2] at e
      rw [e, if_neg (by simp [hnosrc])]
    · have e := rcc_dir_char fs T g hsep (skillDir g ++ "scripts" :: x :: xs)
      simp only [hq2] at e
      rw [e, if_neg (by simp [hnosrc])]

/-- Witness for claim C10: without a source scripts directory the stale
destination script old.py is untouched and registration reports success. -/
theorem missing_scripts_src_skipped_witness :
    Separated ["opt", "skill"] ["home"] ∧
    fsEx3.existsPath (["opt", "skill"] ++ ["scripts"]) = false ∧
    (register_claude_code fsEx3 ["opt", "skill"] ["home"]).2 = true ∧
    ((register_claude_code fsEx3 ["opt", "skill"] ["home"]).1).file
        (skillDir ["home"] ++ "scripts" :: "old.py" :: []) =
      fsEx3.file (skillDir ["home"] ++ "scripts" :: "old.py" :: []) :=
  ⟨⟨rfl, rfl, rfl⟩, by decide,
    (missing_scripts_src_skipped fsEx3 ["opt", "skill"] ["home"] ⟨rfl, rfl, rfl⟩
      (by decide)).1,
    ((missing_scripts_src_skipped fsEx3 ["opt", "skill"] ["home"] ⟨rfl, rfl, rfl⟩
      (by decide)).2.2.2 "old.py" []).1⟩
